import Mathlib

/-!
Verification of `mvc/activator/activator.go` (package `activator`).

The file shallowly embeds the activator's data model and operations:

* `TController` mirrors the Go struct of the same name (the reflective
  `Type`/`Value` fields are rendered as opaque strings, since the claims only
  require that they are carried around unchanged).
* `runHandler` is a line-by-line translation of the closure returned by
  `TController.HandlerOf` (activator.go lines 123-163).  The closure's
  observable behaviour is captured as a trace of lifecycle events, the
  request context is reduced to its one observed bit (`stopped`, read via
  `ctx.IsStopped()`), and the external collaborators' effects on the context
  (`BeginRequest`, the user method, `model.Controller.Handle`, `EndRequest`)
  are parameters in `Hooks`.  Collaborators that do not receive the context
  in the source (`binder.handle(c)`, `SetName(name)`,
  `persistence.Controller.Handle(c)`) accordingly have no `Ctx → Ctx`
  parameter: they cannot change the stopped flag.
* `reflect.New(elem)` (a fresh, zero-initialised heap allocation per request)
  is modelled by an allocation counter: each run consumes the current counter
  value as the identity of its fresh instance and bumps the counter.
* `RegisterMethodHandlers` and `Register` return the list of
  `registerFunc(relPath, httpMethod, handlers...)` calls as data; a Go
  `context.Handler` value is identified by its provenance (`Handler.mw` for a
  binder middleware handler, `Handler.route m` for the closure built by
  `HandlerOf` for method `m`).
-/

namespace Activator

/-- `methodfunc.MethodFunc`, restricted to the fields activator.go reads:
`Name`, `HTTPMethod`, `RelPath` and the reflective method `Index`. -/
structure MethodFunc where
  Name : String
  HTTPMethod : String
  RelPath : String
  Index : Nat
deriving Repr, DecidableEq

/-- A `context.Handler` value, identified by provenance: either one of the
binder's middleware handlers (external, named) or the closure built by
`HandlerOf` for a given method. -/
inductive Handler where
  | mw (name : String)
  | route (m : MethodFunc)
deriving Repr, DecidableEq

/-- The external `binder` collaborator, restricted to what activator.go
reads: its `fields` (only iterated for debug logging) and its `middleware`
handler chain. -/
structure Binder where
  fields : List String
  middleware : List Handler
deriving Repr, DecidableEq

/-- `TController` (activator.go lines 23-38).  `reflect.Type` / `reflect.Value`
are opaque to the activator (it only stores them and hands them to external
collaborators), so they are rendered as strings; `Type` is spelled `Ty`
because `Type` is a Lean keyword.  The model and persistence sub-controllers
are opaque to activator.go as well (their `Handle` behaviour lives in
`Hooks`), so only their presence (`Option Unit`) is kept. -/
structure TController where
  Name : String
  FullName : String
  Ty : String
  Value : String
  binder : Option Binder
  modelController : Option Unit
  persistenceController : Option Unit
deriving Repr, DecidableEq

/-- The request context, reduced to the single bit activator.go observes:
`ctx.IsStopped()`. -/
structure Ctx where
  stopped : Bool
deriving Repr, DecidableEq

/-- Context effects of the external collaborators that receive the context in
the source: `BeginRequest(ctx)`, the resolved user method
(`handleRequest(ctx, ...)`), `modelController.Handle(ctx, c)` and
`EndRequest(ctx)`.  Each may read and write the stopped flag arbitrarily. -/
structure Hooks where
  beginRequest : Ctx → Ctx
  methodCall : Ctx → Ctx
  modelHandle : Ctx → Ctx
  endRequest : Ctx → Ctx

/-- One observable lifecycle action of the handler closure, tagged with the
identity of the request instance it acts on. -/
inductive Event where
  | alloc (id : Nat)
  | binderHandle (id : Nat)
  | setName (id : Nat) (name : String)
  | persistenceHandle (id : Nat)
  | beginRequest (id : Nat)
  | methodCall (id : Nat) (index : Nat)
  | modelHandle (id : Nat)
  | endRequest (id : Nat)
deriving Repr, DecidableEq

/-- The instance identity an event acts on. -/
def eventId : Event → Nat
  | .alloc i => i
  | .binderHandle i => i
  | .setName i _ => i
  | .persistenceHandle i => i
  | .beginRequest i => i
  | .methodCall i _ => i
  | .modelHandle i => i
  | .endRequest i => i

/-- Every event of the trace acts on instance `i` only. -/
def usesOnly (tr : List Event) (i : Nat) : Bool :=
  tr.all (fun e => eventId e == i)

/-- The trace contains a `BeginRequest` invocation (on any instance). -/
def occursBeginRequest (tr : List Event) : Bool :=
  tr.any (fun e => match e with | .beginRequest _ => true | _ => false)

/-- The trace contains a user-method invocation (on any instance). -/
def occursMethodCall (tr : List Event) : Bool :=
  tr.any (fun e => match e with | .methodCall _ _ => true | _ => false)

/-- The trace contains a model-propagation step (on any instance). -/
def occursModelHandle (tr : List Event) : Bool :=
  tr.any (fun e => match e with | .modelHandle _ => true | _ => false)

/-- The trace contains an `EndRequest` invocation (on any instance). -/
def occursEndRequest (tr : List Event) : Bool :=
  tr.any (fun e => match e with | .endRequest _ => true | _ => false)

/-- Result of one execution of the closure built by `HandlerOf`: the trace of
lifecycle events, the final context, the allocator counter after the run, and
the closure's captured descriptor as it stands after the run. -/
structure RunResult where
  trace : List Event
  ctx : Ctx
  nextId : Nat
  descriptor : TController
deriving Repr

/-- The body of the closure returned by `TController.HandlerOf`
(activator.go lines 123-163), translated line by line.

```
c := reflect.New(elem)                 -- fresh zero value, identity nextId
if t.binder != nil { t.binder.handle(c) }
b := c.Interface().(BaseController)
b.SetName(ctrlName)                    -- ctrlName = t.Name, captured
if hasPersistenceData { t.persistenceController.Handle(c) }
if ctx.IsStopped() { return }
b.BeginRequest(ctx)
if ctx.IsStopped() { return }
handleRequest(ctx, c.Method(methodFunc.Index))
if hasModels { t.modelController.Handle(ctx, c) }
b.EndRequest(ctx)
```

`binder.handle`, `SetName` and `persistence.Handle` do not receive `ctx` in
the source, so the first stopped-check reads the entry context unchanged. -/
def runHandler (t : TController) (methodFunc : MethodFunc) (hooks : Hooks)
    (ctx : Ctx) (nextId : Nat) : RunResult :=
  let ctrlName := t.Name
  let hasPersistenceData := t.persistenceController.isSome
  let hasModels := t.modelController.isSome
  let cid := nextId
  let tr1 := [Event.alloc cid]
    ++ (if t.binder.isSome then [Event.binderHandle cid] else [])
  let tr2 := tr1 ++ [Event.setName cid ctrlName]
  let tr3 := tr2
    ++ (if hasPersistenceData then [Event.persistenceHandle cid] else [])
  if ctx.stopped then
    { trace := tr3, ctx := ctx, nextId := cid + 1, descriptor := t }
  else
    let ctx1 := hooks.beginRequest ctx
    let tr4 := tr3 ++ [Event.beginRequest cid]
    if ctx1.stopped then
      { trace := tr4, ctx := ctx1, nextId := cid + 1, descriptor := t }
    else
      let ctx2 := hooks.methodCall ctx1
      let tr5 := tr4 ++ [Event.methodCall cid methodFunc.Index]
      let ctx3 := if hasModels then hooks.modelHandle ctx2 else ctx2
      let tr6 := tr5 ++ (if hasModels then [Event.modelHandle cid] else [])
      let ctx4 := hooks.endRequest ctx3
      { trace := tr6 ++ [Event.endRequest cid], ctx := ctx4,
        nextId := cid + 1, descriptor := t }

/-- `TController.HandlerOf` (activator.go lines 111-164).  The source returns
the closure literal whose behaviour is `runHandler t methodFunc`; the Go
return type `context.Handler` is a nilable function type, rendered as
`Option Handler` so that the `h == nil` check in `RegisterMethodHandlers`
can be expressed.  The source never returns nil: it unconditionally returns
the closure, represented by its provenance `Handler.route methodFunc`. -/
def HandlerOf (t : TController) (methodFunc : MethodFunc) : Option Handler :=
  let _elem := t.Ty
  let _ctrlName := t.Name
  some (Handler.route methodFunc)

/-- One call of the `registerFunc` callback:
`registerFunc(m.RelPath, m.HTTPMethod, registeredHandlers...)`. -/
structure Registration where
  relPath : String
  httpMethod : String
  handlers : List Handler
deriving Repr, DecidableEq

/-- The local `middleware` variable of `RegisterMethodHandlers`
(activator.go lines 176-182):

```
var middleware context.Handlers
if t.binder != nil {
    if m := t.binder.middleware; len(m) > 0 { middleware = m }
}
``` -/
def registeredMiddleware (t : TController) : List Handler :=
  match t.binder with
  | some b => if 0 < b.middleware.length then b.middleware else []
  | none => []

/-- `RegisterMethodHandlers` (activator.go lines 175-211).  The result of the
external `methodfunc.Resolve(t.Type)` call is passed in as
`(methods, err)`; a non-nil `err` is only logged (`golog.Errorf`, with the
comment "don't stop here") and does not affect control flow.  For each
resolved method the handler is built; a nil handler is skipped (with a
`golog.Warnf` warning) via the `continue`, otherwise
`registerFunc(m.RelPath, m.HTTPMethod, append(middleware, h)...)` is called.
The returned list collects the `registerFunc` calls in order. -/
def RegisterMethodHandlers (t : TController) (methods : List MethodFunc)
    (err : Option String) : List Registration :=
  let _logged := err
  methods.filterMap (fun m =>
    match HandlerOf t m with
    | none => none
    | some h => some { relPath := m.RelPath, httpMethod := m.HTTPMethod,
                       handlers := registeredMiddleware t ++ [h] })

/-- `pkgPath[strings.LastIndexByte(pkgPath, '/')+1:]` (activator.go line 86):
the suffix of `pkgPath` after the last `'/'`, or all of it when no `'/'`
occurs (`LastIndexByte` returning -1). -/
def lastPkgSegment (pkgPath : String) : String :=
  String.mk ((pkgPath.data.reverse.takeWhile (fun c => c != '/')).reverse)

/-- The template instance handed to `ActivateController`.  `typeName` and
`pkgPath` stand for `val.Type().Name()` and `val.Type().PkgPath()`.  The
three capability flags record whether the template's type provides the
`BaseController` methods `SetName` / `BeginRequest` / `EndRequest`; the Go
parameter type `BaseController` corresponds to a template with all three
flags true. -/
structure Template where
  typeName : String
  pkgPath : String
  hasSetName : Bool
  hasBeginRequest : Bool
  hasEndRequest : Bool
deriving Repr, DecidableEq

/-- `ActivateController` (activator.go lines 72-108).  The external builders
`newBinder(typ.Elem(), bindValues)`, `model.Load(typ)` and
`persistence.Load(typ, val)` are passed in as their results (`binderRes`,
`modelRes`, `persistRes`); each may be absent (`none`), which is silent and
non-fatal.  The function computes the display name and the qualified name
`<last package segment>.<type name>`, builds the `TController`, and returns
it with a nil error — the source has no error path (`return t, nil`). -/
def ActivateController (base : Template) (binderRes : Option Binder)
    (modelRes : Option Unit) (persistRes : Option Unit) :
    TController × Option String :=
  let ctrlName := base.typeName
  let fullName := lastPkgSegment base.pkgPath ++ "." ++ ctrlName
  ({ Name := ctrlName, FullName := fullName,
     Ty := "*" ++ base.typeName, Value := base.typeName,
     binder := binderRes, modelController := modelRes,
     persistenceController := persistRes }, none)

/-- Modelled from the spec: the Base Controller capability validation.  The
validation itself is not under `mvc/activator/activator.go` — in Go it is the
static requirement that the argument satisfy the `BaseController` interface,
enforced by the parent `mvc` package's `Controller` function, of which only
the error declaration `ErrMissingControllerInstance` ("controller should have
a field of mvc.Controller or mvc.C type", fired from `Controller`) appears in
the file.  Per the spec: "A template missing any of
SetName/BeginRequest/EndRequest fails activation with a descriptive error";
a template providing all three activates via `ActivateController`. -/
def activateControllerChecked (base : Template) (binderRes : Option Binder)
    (modelRes : Option Unit) (persistRes : Option Unit) :
    Except String TController :=
  if base.hasSetName && base.hasBeginRequest && base.hasEndRequest then
    Except.ok (ActivateController base binderRes modelRes persistRes).fst
  else
    Except.error "controller should have a field of mvc.Controller or mvc.C type"

/-- `Register` (activator.go lines 216-228), with the spec-modelled
capability gate of `activateControllerChecked` in place of the in-file
`ActivateController` call (which never fails).  The external pre-activation
hook `CallOnActivate(controller, &bindValues, registerFunc)` only adjusts the
bind values consumed by the external `newBinder`, so it is absorbed by the
`binderRes` parameter.  On activation error, `Register` returns the error
before any handler registration, so zero routes are registered; on success it
performs `RegisterMethodHandlers` and returns nil. -/
def Register (base : Template) (binderRes : Option Binder)
    (modelRes : Option Unit) (persistRes : Option Unit)
    (methods : List MethodFunc) (err : Option String) :
    Except String (List Registration) :=
  match activateControllerChecked base binderRes modelRes persistRes with
  | Except.error e => Except.error e
  | Except.ok t => Except.ok (RegisterMethodHandlers t methods err)

/-- The unobstructed lifecycle order exactly as the spec words it (spec §8):
"bind → name-set → persistence-restore → BeginRequest → user method →
model-propagate → EndRequest", optional stages present precisely when their
collaborator is.  Written from the spec sentence, to be compared with the
trace `runHandler` produces. -/
def specUnobstructedTrace (t : TController) (m : MethodFunc) (cid : Nat) :
    List Event :=
  (if t.binder.isSome then [Event.binderHandle cid] else [])
    ++ [Event.setName cid t.Name]
    ++ (if t.persistenceController.isSome then [Event.persistenceHandle cid] else [])
    ++ [Event.beginRequest cid]
    ++ [Event.methodCall cid m.Index]
    ++ (if t.modelController.isSome then [Event.modelHandle cid] else [])
    ++ [Event.endRequest cid]

/-- Concrete fixture: a controller with a model controller and no binder or
persistence controller. -/
def itemsWithModel : TController :=
  { Name := "Items", FullName := "items.Items", Ty := "*Items",
    Value := "Items", binder := none, modelController := some (),
    persistenceController := none }

/-- Concrete fixture: a controller with all three optional collaborators. -/
def itemsFull : TController :=
  { Name := "Items", FullName := "items.Items", Ty := "*Items",
    Value := "Items",
    binder := some { fields := ["DB"], middleware := [Handler.mw "auth"] },
    modelController := some (), persistenceController := some () }

/-- Concrete fixture: a plain controller with no optional collaborators. -/
def itemsPlain : TController :=
  { Name := "Items", FullName := "items.Items", Ty := "*Items",
    Value := "Items", binder := none, modelController := none,
    persistenceController := none }

/-- Concrete fixture: the resolved descriptor of a `Get()` method. -/
def getMethod : MethodFunc :=
  { Name := "Get", HTTPMethod := "GET", RelPath := "/", Index := 0 }

/-- Concrete fixture: collaborators that leave the context untouched. -/
def idHooks : Hooks :=
  { beginRequest := id, methodCall := id, modelHandle := id, endRequest := id }

/-- Concrete fixture: a `BeginRequest` that stops the request
(`ctx.StopExecution()`); the other collaborators leave the context alone. -/
def stopOnBegin : Hooks :=
  { beginRequest := fun _ => { stopped := true }, methodCall := id,
    modelHandle := id, endRequest := id }

/-- C2: for every request whose context is already marked stopped before
`BeginRequest` is reached (for example stopped by binder middleware, which
runs before the route handler in the registered chain), the handler produced
by `HandlerOf` invokes none of `BeginRequest`, the user method, model
propagation, or `EndRequest`. -/
theorem C2_stoppedBefore_skips_all (t : TController) (m : MethodFunc)
    (hooks : Hooks) (ctx : Ctx) (n : Nat) (h : ctx.stopped = true) :
    occursBeginRequest (runHandler t m hooks ctx n).trace = false
    ∧ occursMethodCall (runHandler t m hooks ctx n).trace = false
    ∧ occursModelHandle (runHandler t m hooks ctx n).trace = false
    ∧ occursEndRequest (runHandler t m hooks ctx n).trace = false := by
  cases hb : t.binder.isSome <;> cases hp : t.persistenceController.isSome <;>
    simp [runHandler, h, hb, hp, occursBeginRequest, occursMethodCall,
      occursModelHandle, occursEndRequest]

/-- Witness for C2 at a concrete input: the full controller, an entry
context already stopped. -/
theorem C2_stoppedBefore_skips_all_witness :
    occursBeginRequest (runHandler itemsFull getMethod idHooks
        { stopped := true } 0).trace = false
    ∧ occursMethodCall (runHandler itemsFull getMethod idHooks
        { stopped := true } 0).trace = false
    ∧ occursModelHandle (runHandler itemsFull getMethod idHooks
        { stopped := true } 0).trace = false
    ∧ occursEndRequest (runHandler itemsFull getMethod idHooks
        { stopped := true } 0).trace = false :=
  C2_stoppedBefore_skips_all itemsFull getMethod idHooks { stopped := true } 0 rfl

/-- C3: for every request in which the stopped flag is never set (not at
entry, and not by `BeginRequest`), the handler performs exactly the
allocation followed by the spec's sequence: binder field injection, SetName,
persistence-field restore, BeginRequest, the resolved user method, model
propagation, EndRequest, in that order, optional stages present exactly when
their collaborator is. -/
theorem C3_unobstructed_order (t : TController) (m : MethodFunc)
    (hooks : Hooks) (ctx : Ctx) (n : Nat) (h1 : ctx.stopped = false)
    (h2 : (hooks.beginRequest ctx).stopped = false) :
    (runHandler t m hooks ctx n).trace
      = Event.alloc n :: specUnobstructedTrace t m n := by
  simp [runHandler, h1, h2, specUnobstructedTrace]

/-- Witness for C3 at a concrete input: the full controller, a fresh context
and hooks that never stop. -/
theorem C3_unobstructed_order_witness :
    (runHandler itemsFull getMethod idHooks { stopped := false } 0).trace
      = Event.alloc 0 :: specUnobstructedTrace itemsFull getMethod 0 :=
  C3_unobstructed_order itemsFull getMethod idHooks { stopped := false } 0 rfl rfl

/-- C10: for every request whose context is already marked stopped when the
handler is entered, the handler still allocates a fresh instance, applies the
binder when present, calls `SetName` with the controller's display name, and
restores persistence fields when a persistence controller is present — and
its trace is exactly those stages, so only the stages from the first
stopped-check onward are skipped. -/
theorem C10_prefix_stages_run (t : TController) (m : MethodFunc)
    (hooks : Hooks) (ctx : Ctx) (n : Nat) (h : ctx.stopped = true) :
    (runHandler t m hooks ctx n).trace
      = [Event.alloc n]
        ++ (if t.binder.isSome then [Event.binderHandle n] else [])
        ++ [Event.setName n t.Name]
        ++ (if t.persistenceController.isSome then [Event.persistenceHandle n] else [])
    ∧ (runHandler t m hooks ctx n).nextId = n + 1 := by
  constructor
  · simp [runHandler, h]
  · simp [runHandler, h]

/-- Witness for C10 at a concrete input. -/
theorem C10_prefix_stages_run_witness :
    (runHandler itemsFull getMethod idHooks { stopped := true } 3).trace
      = [Event.alloc 3]
        ++ (if itemsFull.binder.isSome then [Event.binderHandle 3] else [])
        ++ [Event.setName 3 itemsFull.Name]
        ++ (if itemsFull.persistenceController.isSome then [Event.persistenceHandle 3] else [])
    ∧ (runHandler itemsFull getMethod idHooks { stopped := true } 3).nextId = 3 + 1 :=
  C10_prefix_stages_run itemsFull getMethod idHooks { stopped := true } 3 rfl

/-- C1 counterexample: a concrete request on a controller with a model
controller, whose `BeginRequest` stops the execution.  `BeginRequest` runs
and marks the context stopped, the model controller is present — yet the
trace contains no model-propagation step and no `EndRequest`: the closure
returns at the post-`BeginRequest` stopped-check (activator.go lines
147-149), refuting the claim that model propagation and `EndRequest` still
execute. -/
theorem C1_beginStop_counterexample :
    (stopOnBegin.beginRequest { stopped := false }).stopped = true
    ∧ itemsWithModel.modelController.isSome = true
    ∧ occursBeginRequest (runHandler itemsWithModel getMethod stopOnBegin
        { stopped := false } 0).trace = true
    ∧ occursMethodCall (runHandler itemsWithModel getMethod stopOnBegin
        { stopped := false } 0).trace = false
    ∧ occursModelHandle (runHandler itemsWithModel getMethod stopOnBegin
        { stopped := false } 0).trace = false
    ∧ occursEndRequest (runHandler itemsWithModel getMethod stopOnBegin
        { stopped := false } 0).trace = false := by
  decide

/-- C1 amended: for every request in which `BeginRequest` sets the context's
stopped flag (the context not being stopped at entry), the handler produced
by `HandlerOf` does not invoke the user method — and it also skips model
propagation and `EndRequest`: it returns immediately after the
post-`BeginRequest` stopped-check, `BeginRequest` being the last lifecycle
stage that runs. -/
theorem C1_beginStop_amended (t : TController) (m : MethodFunc)
    (hooks : Hooks) (ctx : Ctx) (n : Nat) (h1 : ctx.stopped = false)
    (h2 : (hooks.beginRequest ctx).stopped = true) :
    occursBeginRequest (runHandler t m hooks ctx n).trace = true
    ∧ occursMethodCall (runHandler t m hooks ctx n).trace = false
    ∧ occursModelHandle (runHandler t m hooks ctx n).trace = false
    ∧ occursEndRequest (runHandler t m hooks ctx n).trace = false := by
  cases hb : t.binder.isSome <;> cases hp : t.persistenceController.isSome <;>
    simp [runHandler, h1, h2, hb, hp, occursBeginRequest, occursMethodCall,
      occursModelHandle, occursEndRequest]

/-- Witness for the amended C1 at a concrete input. -/
theorem C1_beginStop_amended_witness :
    occursBeginRequest (runHandler itemsFull getMethod stopOnBegin
        { stopped := false } 0).trace = true
    ∧ occursMethodCall (runHandler itemsFull getMethod stopOnBegin
        { stopped := false } 0).trace = false
    ∧ occursModelHandle (runHandler itemsFull getMethod stopOnBegin
        { stopped := false } 0).trace = false
    ∧ occursEndRequest (runHandler itemsFull getMethod stopOnBegin
        { stopped := false } 0).trace = false :=
  C1_beginStop_amended itemsFull getMethod stopOnBegin { stopped := false } 0 rfl rfl

/-- C9: executing the handler leaves every field of the captured
`TController` descriptor — `Name`, `FullName`, `Type` (`Ty`), `Value`,
`binder`, `modelController`, `persistenceController` — unchanged, on every
control path. -/
theorem C9_descriptor_frame (t : TController) (m : MethodFunc)
    (hooks : Hooks) (ctx : Ctx) (n : Nat) :
    (runHandler t m hooks ctx n).descriptor.Name = t.Name
    ∧ (runHandler t m hooks ctx n).descriptor.FullName = t.FullName
    ∧ (runHandler t m hooks ctx n).descriptor.Ty = t.Ty
    ∧ (runHandler t m hooks ctx n).descriptor.Value = t.Value
    ∧ (runHandler t m hooks ctx n).descriptor.binder = t.binder
    ∧ (runHandler t m hooks ctx n).descriptor.modelController = t.modelController
    ∧ (runHandler t m hooks ctx n).descriptor.persistenceController
        = t.persistenceController := by
  cases hs : ctx.stopped <;> cases hs2 : (hooks.beginRequest ctx).stopped <;>
    simp [runHandler, hs, hs2]

/-- Helper: every event of a run's trace acts on the instance allocated for
that run (the allocator value at entry). -/
theorem usesOnly_runHandler (t : TController) (m : MethodFunc) (hooks : Hooks)
    (ctx : Ctx) (n : Nat) :
    usesOnly (runHandler t m hooks ctx n).trace n = true := by
  cases hs : ctx.stopped <;> cases hs2 : (hooks.beginRequest ctx).stopped <;>
    cases hb : t.binder.isSome <;> cases hp : t.persistenceController.isSome <;>
    cases hm : t.modelController.isSome <;>
      simp [runHandler, usesOnly, eventId, hs, hs2, hb, hp, hm]

/-- Helper: every run bumps the allocation counter by exactly one. -/
theorem nextId_runHandler (t : TController) (m : MethodFunc) (hooks : Hooks)
    (ctx : Ctx) (n : Nat) :
    (runHandler t m hooks ctx n).nextId = n + 1 := by
  cases hs : ctx.stopped <;> cases hs2 : (hooks.beginRequest ctx).stopped <;>
    simp [runHandler, hs, hs2]

/-- C7: two invocations of the same route handler operate on distinct
request instances.  Each invocation allocates the fresh instance identified
by the allocator value at its entry (`reflect.New(elem)`, a new
zero-initialised value), uses only that instance throughout, and bumps the
allocator, so the instance of a second invocation — whatever its context and
collaborator behaviour — is distinct from the first's and never shared. -/
theorem C7_fresh_instances (t : TController) (m : MethodFunc)
    (hooks hooks2 : Hooks) (ctx ctx2 : Ctx) (n : Nat) :
    usesOnly (runHandler t m hooks ctx n).trace n = true
    ∧ (runHandler t m hooks ctx n).nextId = n + 1
    ∧ usesOnly (runHandler t m hooks2 ctx2
        ((runHandler t m hooks ctx n).nextId)).trace
        ((runHandler t m hooks ctx n).nextId) = true
    ∧ ((runHandler t m hooks ctx n).nextId != n) = true := by
  refine ⟨usesOnly_runHandler t m hooks ctx n, nextId_runHandler t m hooks ctx n,
    usesOnly_runHandler t m hooks2 ctx2 _, ?_⟩
  rw [nextId_runHandler]
  simp

/-- Helper: since `HandlerOf` yields a handler for every method, the
registration loop registers one route per resolved method, each carrying the
middleware chain followed by that method's handler. -/
theorem registerMethodHandlers_eq_map (t : TController)
    (methods : List MethodFunc) (err : Option String) :
    RegisterMethodHandlers t methods err
      = methods.map (fun m =>
          { relPath := m.RelPath, httpMethod := m.HTTPMethod,
            handlers := registeredMiddleware t ++ [Handler.route m] }) := by
  induction methods with
  | nil => rfl
  | cons m ms ih =>
    simp only [RegisterMethodHandlers, HandlerOf, List.filterMap_cons,
      List.map_cons] at ih ⊢
    rw [ih]

/-- C5: the number of routes passed to the registration callback equals the
number of resolved method descriptors minus the number of per-method
handler-build failures (methods for which `HandlerOf` yields no handler);
and a non-nil resolution error, which is only logged, leaves the
registrations exactly as they are with no error. -/
theorem C5_route_count (t : TController) (methods : List MethodFunc)
    (e : String) :
    (RegisterMethodHandlers t methods (some e)).length
      = methods.length
        - (methods.filter (fun m => (HandlerOf t m).isNone)).length
    ∧ RegisterMethodHandlers t methods (some e)
        = RegisterMethodHandlers t methods none := by
  constructor
  · rw [registerMethodHandlers_eq_map]
    simp [HandlerOf]
  · rfl

/-- C6 counterexample: the handler factory never yields a nil handler — even
for the fully degenerate method descriptor (empty name, empty verb, empty
path) `HandlerOf` returns a handler, and `RegisterMethodHandlers` registers
that route instead of skipping it; this refutes the claim that a malformed
`MethodDescriptor` makes the factory yield no handler. -/
theorem C6_malformed_counterexample :
    (HandlerOf itemsPlain
        { Name := "", HTTPMethod := "", RelPath := "", Index := 0 }).isSome
      = true
    ∧ (RegisterMethodHandlers itemsPlain
        [{ Name := "", HTTPMethod := "", RelPath := "", Index := 0 }]
        none).length = 1 := by
  decide

/-- C6 amended: `HandlerOf` builds a (non-nil) handler for every
`MethodDescriptor` — it never inspects the descriptor for validity — so the
skip-with-warning branch of `RegisterMethodHandlers` is never taken for
handlers built by `HandlerOf`, and every resolved descriptor is
registered. -/
theorem C6_factory_total_amended (t : TController) (methods : List MethodFunc)
    (err : Option String) (m : MethodFunc) :
    (HandlerOf t m).isSome = true
    ∧ (RegisterMethodHandlers t methods err).length = methods.length := by
  constructor
  · rfl
  · rw [registerMethodHandlers_eq_map]
    simp

/-- C8: for every resolved method descriptor, the registration callback is
called with that method's relative path, its HTTP verb, and the binder's
middleware handlers (when a binder is present; nothing otherwise) followed by
that method's route handler, in that order — one call per descriptor, in
resolution order. -/
theorem C8_registration_shape (t : TController) (methods : List MethodFunc)
    (err : Option String) :
    RegisterMethodHandlers t methods err
      = methods.map (fun m =>
          { relPath := m.RelPath, httpMethod := m.HTTPMethod,
            handlers := (match t.binder with
              | some b => b.middleware
              | none => ([] : List Handler)) ++ [Handler.route m] }) := by
  have hmw : registeredMiddleware t
      = (match t.binder with
          | some b => b.middleware
          | none => ([] : List Handler)) := by
    cases hb : t.binder with
    | none => simp [registeredMiddleware, hb]
    | some b =>
      cases hm : b.middleware with
      | nil => simp [registeredMiddleware, hb, hm]
      | cons x xs => simp [registeredMiddleware, hb, hm]
  rw [registerMethodHandlers_eq_map]
  simp only [hmw]

/-- C4 (spec-modelled capability gate): a template missing any of the
SetName / BeginRequest / EndRequest capabilities makes activation fail with
the descriptive error, and `Register` aborts returning that error with zero
routes registered; a template providing all three activates successfully and
`Register` proceeds to register its method handlers. -/
theorem C4_capability_gate (base : Template) (binderRes : Option Binder)
    (modelRes : Option Unit) (persistRes : Option Unit)
    (methods : List MethodFunc) (err : Option String) :
    Register base binderRes modelRes persistRes methods err
      = (if base.hasSetName && base.hasBeginRequest && base.hasEndRequest then
          Except.ok (RegisterMethodHandlers
            (ActivateController base binderRes modelRes persistRes).fst
            methods err)
        else
          Except.error
            "controller should have a field of mvc.Controller or mvc.C type") := by
  cases hcap : base.hasSetName && base.hasBeginRequest && base.hasEndRequest <;>
    simp [Register, activateControllerChecked, hcap]

end Activator
